import Mathlib

/-!
Verification development for the deployment engine and config writer of
dynatrace-configuration-as-code.

The deployment engine (parameter resolver, reference validator, template
renderer, deployment dispatcher, run coordinator) is embedded from the
design specification, since only its unit tests are part of the provided
sources; the config writer (`WriteConfigs` and its helpers) is embedded
directly from its source.
-/

set_option autoImplicit false

namespace Monaco

/-- Association list lookup: first entry whose key equals `k`. Models Go map
indexing on the deterministic maps used throughout the engine. -/
def alookup {α β : Type} [DecidableEq α] (k : α) : List (α × β) → Option β
  | [] => none
  | (k', v) :: rest => if k' = k then some v else alookup k rest

@[simp] theorem alookup_nil {α β : Type} [DecidableEq α] (k : α) :
    alookup (β := β) k [] = none := rfl

@[simp] theorem alookup_cons {α β : Type} [DecidableEq α] (k k' : α) (v : β)
    (rest : List (α × β)) :
    alookup k ((k', v) :: rest) = if k' = k then some v else alookup k rest := rfl

/-- Identity key for a configuration object: (project, type, config id).
From the source data model (`coordinate.Coordinate`). -/
structure Coordinate where
  project : String
  type : String
  configId : String
deriving DecidableEq, Repr

/-- A resolved parameter value. Parameter values in the engine are dynamically
typed (Go `interface\x7b\x7d`); the tests use strings and ints. -/
inductive ParamValue
  | str (s : String)
  | int (n : Int)
deriving DecidableEq, Repr

/-- How a parameter value is interpolated into a template, mirroring Go
text/template default formatting of strings and integers. -/
def ParamValue.render : ParamValue → String
  | .str s => s
  | .int n => toString n

/-- A declared cross-object dependency: (target coordinate, target property
name). From the source data model (`parameter.ParameterReference`). -/
structure ParameterReference where
  config : Coordinate
  property : String
deriving DecidableEq, Repr

/-- Modelled from the spec: a parameter with the capability pair
Resolve / ListReferences (the engine's `parameter.Parameter`; the concrete
shape follows the `DummyParameter` used by the unit tests: a literal value,
a declared reference list, and an optional resolution failure). -/
structure Parameter where
  value : ParamValue := .str ""
  references : List ParameterReference := []
  err : Bool := false
deriving DecidableEq, Repr

/-- Output of processing one object: entity name, coordinate, resolved
properties and the skip marker. From the source data model
(`parameter.ResolvedEntity`). -/
structure ResolvedEntity where
  entityName : String
  coordinate : Coordinate
  properties : List (String × ParamValue)
  skip : Bool
deriving DecidableEq, Repr

/-- Errors produced by the deployment engine, one constructor per error kind
named by the specification. -/
inductive DeployError
  | selfReference (coordinate : Coordinate) (property : String)
  | unresolvedDependency (coordinate : Coordinate)
  | referenceToSkippedConfig (coordinate : Coordinate)
  | paramResolveError (paramName : String)
  | missingNameParameter
  | invalidNameType
  | duplicateName (apiId : String) (name : String)
  | unresolvedPlaceholder (key : String)
  | apiNotFound (apiId : String)
deriving DecidableEq, Repr

/-! ## Template Renderer

The renderer (`NewTemplateFromString` + `ExecuteTemplate`, a wrapper over
Go text/template with missingkey=error) is not among the provided sources
— only its tests are. A parsed template is a sequence of literal runs and
placeholders; a placeholder names either a property-map entry or, via the
reserved `.Env` accessor, an environment variable. The raw substitution
engine (`renderTemplate`) inserts the provided values verbatim and fails
hard on a missing key; on top of it, the renderer's special-character
tests (rows named "newlines are escaped" and "strings with random
double-quotes are escaped") show that `ExecuteTemplate` first
JSON-escapes every substituted property value that is not recognized as a
v1 list definition — the tests override the spec's statement that no
escaping is performed. -/

/-- One parsed template element: a literal text run, a property placeholder,
or an environment-variable placeholder. -/
inductive TemplateItem
  | lit (s : String)
  | prop (key : String)
  | env (key : String)
deriving DecidableEq, Repr

/-- The raw substitution engine (Go text/template with missingkey=error):
substitute each placeholder from the property map or the environment, left
to right; a key with no entry is a hard `UnresolvedPlaceholder` failure
and no output is produced. The engine itself inserts the provided values
verbatim (no delimiter interpretation); the escaping the renderer applies
to property values beforehand is `escapeSpecialCharacters` below. -/
def renderTemplate (properties : List (String × ParamValue))
    (environment : List (String × String)) :
    List TemplateItem → Except DeployError String
  | [] => .ok ""
  | .lit s :: rest => (renderTemplate properties environment rest).map (s ++ ·)
  | .prop k :: rest =>
    match alookup k properties with
    | none => .error (.unresolvedPlaceholder k)
    | some v => (renderTemplate properties environment rest).map (v.render ++ ·)
  | .env k :: rest =>
    match alookup k environment with
    | none => .error (.unresolvedPlaceholder k)
    | some v => (renderTemplate properties environment rest).map (v ++ ·)

/-- Modelled from the cited renderer tests: JSON escaping of one
substituted value — a double quote becomes backslash-quote, a backslash a
double backslash, and newline, carriage return and tab their two-character
escape sequences; other characters pass unchanged (escaping of further
control characters is not exercised by the tests and not modelled). -/
def escapeCharactersForJson (s : String) : String :=
  String.mk (s.data.foldr
    (fun c acc =>
      if c = '\"' then '\\' :: '\"' :: acc
      else if c = '\\' then '\\' :: '\\' :: acc
      else if c = '\n' then '\\' :: 'n' :: acc
      else if c = '\r' then '\\' :: 'r' :: acc
      else if c = '\t' then '\\' :: 't' :: acc
      else c :: acc)
    [])

/-- Whitespace skipper for the list-definition recognizer. -/
def skipSpaces : List Char → List Char
  | [] => []
  | c :: rest =>
    if c = ' ' ∨ c = '\n' ∨ c = '\t' ∨ c = '\r' then skipSpaces rest
    else c :: rest

/-- Consume up to and including the closing double quote of a quoted list
item; none when the quote is unterminated. -/
def scanQuoted : List Char → Option (List Char)
  | [] => none
  | c :: rest => if c = '\"' then some rest else scanQuoted rest

/-- Fueled tail of the list-definition recognizer: after one quoted item,
accept the end, or a comma followed by the end or by another quoted
item. -/
def listDefinitionTail : Nat → List Char → Bool
  | 0, _ => false
  | fuel + 1, cs =>
    match skipSpaces cs with
    | [] => true
    | ',' :: rest =>
      match skipSpaces rest with
      | [] => true
      | '\"' :: rest2 =>
        match scanQuoted rest2 with
        | none => false
        | some rest3 => listDefinitionTail fuel rest3
      | _ => false
    | _ => false

/-- Modelled from the cited renderer tests (the two v1-list rows):
recognizer for v1 list definitions — a comma-separated sequence of
double-quoted items, whitespace and newlines allowed around them — which
are exempt from JSON escaping. -/
def isListDefinition (s : String) : Bool :=
  match skipSpaces s.data with
  | '\"' :: rest =>
    match scanQuoted rest with
    | none => false
    | some rest2 => listDefinitionTail (rest2.length + 1) rest2
  | _ => false

/-- Modelled from the cited renderer tests: the escaping the renderer
applies to every substituted property value before template execution —
values recognized as v1 list definitions pass verbatim, every other
string value is JSON-escaped. -/
def escapeSpecialCharacters (properties : List (String × ParamValue)) :
    List (String × ParamValue) :=
  properties.map (fun p =>
    (p.1,
     match p.2 with
     | .str v =>
       if isListDefinition v then ParamValue.str v
       else ParamValue.str (escapeCharactersForJson v)
     | other => other))

/-- Modelled from the cited renderer tests: `ExecuteTemplate` — escape
the property values, then run the raw substitution engine (which inserts
the already-escaped values verbatim). The tests exercise escaping only
for property values, so environment values are substituted unescaped. -/
def ExecuteTemplate (properties : List (String × ParamValue))
    (environment : List (String × String)) (t : List TemplateItem) :
    Except DeployError String :=
  renderTemplate (escapeSpecialCharacters properties) environment t

/-! ## Parameter Resolver, Reference Validator, Deployment Dispatcher, Run
Coordinator

Modelled from the spec (sections 4.2 - 4.5): the deployment engine proper is
not among the provided sources — only its unit tests are — so its operations
are embedded from the specification, with shapes (signatures, argument
order, error collection policy) matching what the tests exercise. -/

/-- The distinguished parameter name (`config.NameParameter`). -/
def NameParameter : String := "name"

/-- Modelled from the spec (4.3 Reference Validator): for each declared
reference of a parameter, a reference to the own coordinate fails with
SelfReference regardless of property name; otherwise a missing registry
entry fails with UnresolvedDependency, and a Skip=true entry fails with
ReferenceToSkippedConfig; valid references produce no error. The group and
environment arguments mirror the source signature (used there only for
error display). -/
def validateParameterReferences (configCoordinates : Coordinate)
    (_group _environment : String)
    (entities : List (Coordinate × ResolvedEntity))
    (_paramName : String) (param : Parameter) : List DeployError :=
  param.references.filterMap fun ref =>
    if ref.config = configCoordinates then
      some (.selfReference ref.config ref.property)
    else
      match alookup ref.config entities with
      | none => some (.unresolvedDependency ref.config)
      | some entity =>
        if entity.skip then some (.referenceToSkippedConfig ref.config) else none

/-- The object-type variant of a deployable config: a classic API target or
a settings target (`config.Type` in the sources the tests exercise). -/
inductive ConfigType
  | classicApi (api : String)
  | settings (schema schemaVersion scope : String)
deriving DecidableEq, Repr

/-- A deployable configuration object (`config.Config`). -/
structure Config where
  coordinate : Coordinate
  type : ConfigType := .classicApi ""
  template : List TemplateItem := []
  parameters : List (String × Parameter) := []
  group : String := ""
  environment : String := ""
  skip : Bool := false
deriving DecidableEq, Repr

/-- Modelled from the spec (4.2 Parameter Resolver): every declared
parameter is processed; reference-validation errors and resolution errors
are collected independently per parameter — one failure never stops
resolution of the others — and the full error list is returned together
with the successfully resolved properties. -/
def ResolveParameterValues (conf : Config)
    (entities : List (Coordinate × ResolvedEntity)) :
    List (String × Parameter) → List (String × ParamValue) × List DeployError
  | [] => ([], [])
  | (name, param) :: rest =>
    let vErrs := validateParameterReferences conf.coordinate conf.group
      conf.environment entities name param
    let res := ResolveParameterValues conf entities rest
    if vErrs.isEmpty then
      if param.err then (res.1, .paramResolveError name :: res.2)
      else ((name, param.value) :: res.1, res.2)
    else (res.1, vErrs ++ res.2)

/-- Modelled from the spec (4.2): the distinguished `name` parameter must be
present among the resolved properties and resolve to a string; absence and a
non-string value are distinct hard errors. -/
def ExtractConfigName (_conf : Config)
    (properties : List (String × ParamValue)) : Except DeployError String :=
  match alookup NameParameter properties with
  | none => .error .missingNameParameter
  | some (.str s) => .ok s
  | some _ => .error .invalidNameType

/-- API metadata consulted by the dispatcher (`api.Api`): identifier,
whether names need not be unique, and deprecation. -/
structure Api where
  id : String
  isNonUniqueNameApi : Bool := false
  isDeprecatedApi : Bool := false
deriving DecidableEq, Repr

/-- Modelled from the spec (4.4): a stable identifier derived
deterministically from the Coordinate (a generated UUID in the source; any
deterministic encoding of the coordinate serves the model). -/
def stableID (c : Coordinate) : String :=
  c.project ++ ":" ++ c.type ++ ":" ++ c.configId

/-- The remote operation invoked for one object, mirroring the remote
client collaborator contract (upsertByName / upsertByEntityId / settings
upsert). -/
inductive RemoteOp
  | upsertByName (apiId name payload : String)
  | upsertByEntityId (apiId entityId name payload : String)
  | upsertSettings (payload : String)
deriving DecidableEq, Repr

/-- The names already deployed under an API in the current run
(`knownEntityMap`). -/
def knownNames (known : List (String × List String)) (apiId : String) :
    List String :=
  (alookup apiId known).getD []

/-- Record a freshly deployed name under its API. -/
def addKnownName (known : List (String × List String)) (apiId name : String) :
    List (String × List String) :=
  (apiId, name :: knownNames known apiId) :: known

/-- Modelled from the spec (4.4 Deployment Dispatcher, classic API path):
resolve all parameters (collecting every validation and resolution error);
extract the `name`; for unique-name APIs fail with DuplicateName before any
remote call if the name is already known; render the template; then invoke
exactly one remote operation — upsert-by-name for the unique variant,
upsert-by-generated-id for the non-unique variant. The remote collaborator
is modelled as always succeeding (the dummy client of the tests); the
operation performed is returned alongside the resolved entity, and on any
error no operation is performed. -/
def deployConfig (theApi : Api)
    (entities : List (Coordinate × ResolvedEntity))
    (knownEntityNames : List (String × List String))
    (environment : List (String × String)) (conf : Config) :
    Except (List DeployError) (ResolvedEntity × RemoteOp) :=
  let res := ResolveParameterValues conf entities conf.parameters
  if res.2.isEmpty then
    match ExtractConfigName conf res.1 with
    | .error e => .error [e]
    | .ok configName =>
      if !theApi.isNonUniqueNameApi
          && (knownNames knownEntityNames theApi.id).contains configName then
        .error [.duplicateName theApi.id configName]
      else
        match renderTemplate res.1 environment conf.template with
        | .error e => .error [e]
        | .ok payload =>
          let op := if theApi.isNonUniqueNameApi then
              RemoteOp.upsertByEntityId theApi.id (stableID conf.coordinate)
                configName payload
            else RemoteOp.upsertByName theApi.id configName payload
          .ok ({ entityName := configName, coordinate := conf.coordinate,
                 properties := res.1, skip := false }, op)
  else .error res.2

/-- Modelled from the spec (4.4, settings path): resolve, render, and
upsert; settings objects have no name-uniqueness check and need no `name`
to be extracted before the call. -/
def deploySetting (entities : List (Coordinate × ResolvedEntity))
    (environment : List (String × String)) (conf : Config) :
    Except (List DeployError) (ResolvedEntity × RemoteOp) :=
  let res := ResolveParameterValues conf entities conf.parameters
  if res.2.isEmpty then
    match renderTemplate res.1 environment conf.template with
    | .error e => .error [e]
    | .ok payload =>
      .ok ({ entityName := stableID conf.coordinate,
             coordinate := conf.coordinate,
             properties := res.1, skip := false }, .upsertSettings payload)
  else .error res.2

/-- The Run Coordinator state: the resolved-object registry, the known-name
index, the aggregated error list, and the log of remote operations
performed. -/
structure RunState where
  entities : List (Coordinate × ResolvedEntity) := []
  knownEntityNames : List (String × List String) := []
  errors : List DeployError := []
  ops : List RemoteOp := []
deriving DecidableEq, Repr

/-- The Skip=true registry entry recorded for a skipped object. -/
def skippedEntity (c : Config) : ResolvedEntity :=
  { entityName := c.coordinate.configId, coordinate := c.coordinate,
    properties := [], skip := true }

/-- Modelled from the spec (4.5 Run Coordinator): processing of one object.
A skipped object makes no remote call, runs no name-uniqueness check,
contributes no error, and records a Skip=true registry entry. Otherwise the
dispatcher for the object's variant runs; its errors are appended and, on
success, the registry gains the resolved entity and (for unique-name APIs)
the name index gains the name. -/
def deployConfigsStep (apis : List (String × Api))
    (environment : List (String × String)) (st : RunState) (conf : Config) :
    RunState :=
  if conf.skip then
    { st with entities := st.entities ++ [(conf.coordinate, skippedEntity conf)] }
  else
    match conf.type with
    | .settings _ _ _ =>
      match deploySetting st.entities environment conf with
      | .error errs => { st with errors := st.errors ++ errs }
      | .ok (entity, op) =>
        { st with entities := st.entities ++ [(conf.coordinate, entity)],
                  ops := st.ops ++ [op] }
    | .classicApi apiName =>
      match alookup apiName apis with
      | none => { st with errors := st.errors ++ [.apiNotFound apiName] }
      | some theApi =>
        match deployConfig theApi st.entities st.knownEntityNames environment conf with
        | .error errs => { st with errors := st.errors ++ errs }
        | .ok (entity, op) =>
          { st with
            entities := st.entities ++ [(conf.coordinate, entity)],
            knownEntityNames :=
              if theApi.isNonUniqueNameApi then st.knownEntityNames
              else addKnownName st.knownEntityNames theApi.id entity.entityName,
            ops := st.ops ++ [op] }

/-- Modelled from the spec (4.5): iterate the externally ordered configs
strictly in the given order from empty registries, aggregating all errors;
no object's failure aborts the run. -/
def DeployConfigs (apis : List (String × Api))
    (environment : List (String × String)) (sortedConfigs : List Config) :
    RunState :=
  sortedConfigs.foldl (deployConfigsStep apis environment) {}

/-- Whether one template element can be substituted: literals always, and a
placeholder exactly when its key has an entry in the relevant map. -/
def itemResolvable (properties : List (String × ParamValue))
    (environment : List (String × String)) : TemplateItem → Bool
  | .lit _ => true
  | .prop k => (alookup k properties).isSome
  | .env k => (alookup k environment).isSome

/-- The exact text one template element contributes to the output: literals
themselves, placeholders the looked-up value verbatim (a missing key
contributes the empty string, but such elements are excluded by
`itemResolvable`). -/
def substitutedText (properties : List (String × ParamValue))
    (environment : List (String × String)) : TemplateItem → String
  | .lit s => s
  | .prop k =>
    match alookup k properties with
    | some v => v.render
    | none => ""
  | .env k => (alookup k environment).getD ""

/-- Concatenation of the per-element output pieces. -/
def concatPieces : List String → String
  | [] => ""
  | s :: rest => s ++ concatPieces rest

/-! ## Config writer

Embedded from the source (`WriteConfigs` and its helpers in the provided
writer file). Go dynamic values (`interface` values used for serialized
config parameters and skip markers) are modelled by `GoValue`;
`reflect.DeepEqual` becomes structural equality on `GoValue`. Go maps with
deterministic use are modelled as association lists preserving first-insert
order. The afero filesystem is modelled as a log of write operations that
always succeed (the in-memory filesystem of the tests); `yaml.Marshal` and
the path helpers of the Go standard library are modelled by simple total
string functions, since their output bytes are not load-bearing for the
verified properties. Error messages are abbreviated to their format
strings. -/

/-- A scalar entry of a serialized parameter map (map values are flattened
to scalars in the model; the writer never inspects inside serde-produced
maps). -/
inductive GoScalar
  | sNil
  | sBool (b : Bool)
  | sStr (s : String)
  | sInt (n : Int)
deriving DecidableEq, Repr

/-- A Go dynamic value as used for serialized config parameters. -/
inductive GoValue
  | vNil
  | vBool (b : Bool)
  | vStr (s : String)
  | vInt (n : Int)
  | vMap (entries : List (String × GoScalar))
deriving DecidableEq, Repr

/-- Writer-side view of a `parameter.Parameter`: its type tag
(`GetType()`) and, when it is a plain value parameter, its value. -/
structure WParameter where
  ptype : String
  value : Option GoValue := none
deriving DecidableEq, Repr

/-- A config template on the writer side: file-based (with a path) or
in-memory (with an id). -/
inductive WTemplate
  | fileBased (filePath content : String)
  | inMemory (id content : String)
deriving DecidableEq, Repr

/-- The writer-side config type variant (`SettingsType`, `ClassicApiType`,
`EntityType`, `AutomationType`). -/
inductive WConfigType
  | settingsType (schemaId schemaVersion : String)
  | classicApiType
  | entityType (entitiesType : String)
  | automationType (resource : String)
deriving DecidableEq, Repr

/-- Writer-side `Config`. -/
structure WConfig where
  template : WTemplate
  coordinate : Coordinate
  group : String := ""
  environment : String := ""
  type : WConfigType := .classicApiType
  parameters : List (String × WParameter) := []
  skip : Bool := false
  skipForConversion : Option WParameter := none
  originObjectId : String := ""
deriving DecidableEq, Repr

/-- `configError.DetailedConfigWriterError`. -/
structure DetailedConfigWriterError where
  path : String
  location : Option Coordinate := none
  err : String
deriving DecidableEq, Repr

/-- `parameter.ParameterWriterContext`. -/
structure ParameterWriterContext where
  coordinate : Coordinate
  group : String
  environment : String
  parameterName : String
  parameter : WParameter

/-- `parameter.ParameterSerDe`: the serializer half used by the writer. -/
structure ParameterSerDe where
  serializer :
    ParameterWriterContext → Except DetailedConfigWriterError (List (String × GoScalar))

/-- `WriterContext` (the filesystem handle is replaced by the write-op log
the writer functions return). -/
structure WriterContext where
  outputFolder : String
  projectFolder : String
  parametersSerde : List (String × ParameterSerDe)

/-- `serializerContext` (the embedded `*WriterContext` becomes a field). -/
structure SerializerContext where
  writerContext : WriterContext
  configFolder : String
  config : Coordinate

/-- `environmentDetails`. -/
structure EnvironmentDetails where
  group : String
  environment : String

/-- `detailedSerializerContext`. -/
structure DetailedSerializerContext where
  serializerContext : SerializerContext
  environmentDetails : EnvironmentDetails

/-- `apiCoordinate`. -/
structure ApiCoordinate where
  project : String
  api : String
deriving DecidableEq, Repr

/-- `configTemplate`: absolute template path and template content. -/
structure ConfigTemplate where
  templatePath : String
  content : String
deriving DecidableEq, Repr

/-- `configDefinition` (serialized form of one config). -/
structure ConfigDefinition where
  name : GoValue := .vNil
  parameters : List (String × GoValue) := []
  template : String := ""
  skip : GoValue := .vNil
  originObjectId : String := ""
deriving DecidableEq, Repr

/-- `extendedConfigDefinition` (the Go struct embeds `configDefinition`). -/
structure ExtendedConfigDefinition where
  configDefinition : ConfigDefinition
  group : String := ""
  environment : String := ""
deriving DecidableEq, Repr

/-- `typeDefinition` (exactly one of the variant fields is populated). -/
inductive TypeDefinition
  | apiType (api : String)
  | settingsDef (schema schemaVersion : String) (scope : GoValue)
  | entitiesDef (entitiesType : String)
  | automationDef (resource : String)
deriving DecidableEq, Repr

/-- `groupOverride`. -/
structure GroupOverride where
  group : String
  override : ConfigDefinition
deriving DecidableEq, Repr

/-- `environmentOverride`. -/
structure EnvironmentOverride where
  environment : String
  override : ConfigDefinition
deriving DecidableEq, Repr

/-- `topLevelConfigDefinition`. -/
structure TopLevelConfigDefinition where
  id : String
  config : ConfigDefinition
  type : TypeDefinition
  groupOverrides : List GroupOverride := []
  environmentOverrides : List EnvironmentOverride := []
deriving DecidableEq, Repr

/-- `topLevelDefinition`. -/
structure TopLevelDefinition where
  configs : List TopLevelConfigDefinition
deriving DecidableEq, Repr

/-- One recorded filesystem effect. -/
inductive FsOp
  | mkdirAll (path : String)
  | writeFile (path : String) (content : String)
deriving DecidableEq, Repr

/-- Models Go `filepath.Join` on the slash-separated paths of the model. -/
def filepathJoin (parts : List String) : String :=
  String.intercalate "/" parts

/-- Models Go `filepath.Dir` (drop the final path element). -/
def filepathDir (p : String) : String :=
  String.intercalate "/" ((p.splitOn "/").dropLast)

/-- Models Go `filepath.Clean` (identity on the already-clean paths of the
model). -/
def filepathClean (p : String) : String := p

/-- Models Go `filepath.ToSlash` (identity: the model paths use slashes). -/
def filepathToSlash (p : String) : String := p

/-- Models Go `filepath.Rel`; abstracted to the target path, never failing
(mirroring the success path of the source). -/
def filepathRel (_base target : String) : String := target

/-- Modelled from the spec: the `sanitize` path-name helper is defined
outside the provided sources; identity stand-in. -/
def sanitize (s : String) : String := s

/-- Models `yaml.Marshal` of a top-level definition; the marshalled bytes
are not load-bearing, only that a write of them happens. -/
def yamlMarshal (d : TopLevelDefinition) : String :=
  String.intercalate "\n" (d.configs.map (fun c => c.id))

/-- `ScopeParameter`. -/
def ScopeParameter : String := "scope"

/-- `SkipParameter`. -/
def SkipParameter : String := "skip"

/-- `value.ValueParameterType`. -/
def ValueParameterType : String := "value"

/-- `newConfigWriterError`. -/
def newConfigWriterError (context : WriterContext) (err : String) :
    DetailedConfigWriterError :=
  { path := filepathJoin [context.outputFolder, context.projectFolder],
    err := err }

/-- `newDetailedConfigWriterError`. -/
def newDetailedConfigWriterError (context : SerializerContext) (err : String) :
    DetailedConfigWriterError :=
  { path := context.configFolder, location := some context.config, err := err }

/-- `fmtDetailedConfigWriterError` (format arguments abbreviated away). -/
def fmtDetailedConfigWriterError (context : SerializerContext)
    (format : String) : DetailedConfigWriterError :=
  { path := context.configFolder, location := some context.config,
    err := format }

/-- `newParameterSerializerContext`. -/
def newParameterSerializerContext (context : DetailedSerializerContext)
    (name : String) (param : WParameter) : ParameterWriterContext :=
  { coordinate := context.serializerContext.config,
    group := context.environmentDetails.group,
    environment := context.environmentDetails.environment,
    parameterName := name,
    parameter := param }

/-- `isValueParameter`. -/
def isValueParameter (param : WParameter) : Bool :=
  param.ptype == ValueParameterType

/-- Go map assignment `m[k] = v` on a serialized parameter map. -/
def setMapEntry (m : List (String × GoScalar)) (k : String) (v : GoScalar) :
    List (String × GoScalar) :=
  (k, v) :: m.filter (fun p => p.1 != k)

/-- `toValueShorthandDefinition`: string values are shorthanded to the bare
string; other value-parameter values go through the serde for the value
type (a missing serde, which would make the source dereference a nil
serializer, is modelled as an error). -/
def toValueShorthandDefinition (context : DetailedSerializerContext)
    (parameterName : String) (param : WParameter) :
    Except DetailedConfigWriterError GoValue :=
  if isValueParameter param then
    match param.value with
    | none =>
      .error (fmtDetailedConfigWriterError context.serializerContext
        "parameter is no value param")
    | some (.vStr s) => .ok (.vStr s)
    | some _ =>
      match alookup param.ptype
          context.serializerContext.writerContext.parametersSerde with
      | none =>
        .error (fmtDetailedConfigWriterError context.serializerContext
          "no serde found for value type")
      | some serde =>
        match serde.serializer
            (newParameterSerializerContext context parameterName param) with
        | .error e => .error e
        | .ok result =>
          .ok (.vMap (setMapEntry result "type" (.sStr param.ptype)))
  else
    .error (fmtDetailedConfigWriterError context.serializerContext
      "unknown special type")

/-- `toParameterDefinition`. -/
def toParameterDefinition (context : DetailedSerializerContext)
    (parameterName : String) (param : WParameter) :
    Except DetailedConfigWriterError GoValue :=
  if isValueParameter param then
    toValueShorthandDefinition context parameterName param
  else
    match alookup param.ptype
        context.serializerContext.writerContext.parametersSerde with
    | none =>
      .error (fmtDetailedConfigWriterError context.serializerContext
        "no serde found for type")
    | some serde =>
      match serde.serializer
          (newParameterSerializerContext context parameterName param) with
      | .error e => .error e
      | .ok result =>
        .ok (.vMap (setMapEntry result "type" (.sStr param.ptype)))

/-- `parseNameParameter`. -/
def parseNameParameter (context : DetailedSerializerContext)
    (config : WConfig) : Except DetailedConfigWriterError GoValue :=
  match alookup NameParameter config.parameters with
  | none =>
    .error (fmtDetailedConfigWriterError context.serializerContext
      "name parameter missing")
  | some nameParam => toParameterDefinition context NameParameter nameParam

/-- `parseSkipParameter`. -/
def parseSkipParameter (d : DetailedSerializerContext) (config : WConfig) :
    Except DetailedConfigWriterError GoValue :=
  match config.skipForConversion with
  | none => .ok (.vBool config.skip)
  | some skipParam =>
    match toParameterDefinition d SkipParameter skipParam with
    | .error _ =>
      .error (fmtDetailedConfigWriterError d.serializerContext
        "failed to serialize skip parameter")
    | .ok v => .ok v

/-- `convertParameters`: every parameter other than the specially handled
`name` and `scope` goes through `toParameterDefinition`; errors are
collected across all parameters and, when any occurred, only the errors are
returned. -/
def convertParameters (context : DetailedSerializerContext)
    (parameters : List (String × WParameter)) :
    List (String × GoValue) × List DetailedConfigWriterError :=
  let res := parameters.foldl
    (fun (acc : List (String × GoValue) × List DetailedConfigWriterError) p =>
      if p.1 == NameParameter || p.1 == ScopeParameter then acc
      else
        match toParameterDefinition context p.1 p.2 with
        | .error e => (acc.1, acc.2 ++ [e])
        | .ok parsed => (acc.1 ++ [(p.1, parsed)], acc.2))
    ([], [])
  if res.2.isEmpty then (res.1, []) else ([], res.2)

/-- `extractTemplate` (the `filepath.Rel` failure and the unreachable
unknown-template branch of the source do not arise in the model). -/
def extractTemplate (context : DetailedSerializerContext) (config : WConfig) :
    String × ConfigTemplate :=
  match config.template with
  | .fileBased filePath content =>
    (filepathRel context.serializerContext.configFolder (filepathClean filePath),
     { templatePath := filePath, content := content })
  | .inMemory id content =>
    let sanitizedName := sanitize id ++ ".json"
    (sanitizedName,
     { templatePath := filepathJoin [context.serializerContext.configFolder,
         sanitizedName],
       content := content })

/-- `toConfigDefinition`: parse the name and skip parameters, convert the
remaining parameters, extract the template; all errors are collected and,
when any occurred, only the errors are returned. -/
def toConfigDefinition (context : SerializerContext) (config : WConfig) :
    ConfigDefinition × ConfigTemplate × List DetailedConfigWriterError :=
  let detailedContext : DetailedSerializerContext :=
    { serializerContext := context,
      environmentDetails :=
        { group := config.group, environment := config.environment } }
  let nameRes :=
    match parseNameParameter detailedContext config with
    | .error e => (GoValue.vNil, [e])
    | .ok v => (v, [])
  let skipRes :=
    match parseSkipParameter detailedContext config with
    | .error e => (GoValue.vNil, [e])
    | .ok v => (v, [])
  let paramsRes := convertParameters detailedContext config.parameters
  let templateRes := extractTemplate detailedContext config
  let errs := nameRes.2 ++ skipRes.2 ++ paramsRes.2
  if errs.isEmpty then
    ({ name := nameRes.1,
       parameters := paramsRes.1,
       template := filepathToSlash templateRes.1,
       skip := skipRes.1,
       originObjectId := config.originObjectId }, templateRes.2, [])
  else ({}, { templatePath := "", content := "" }, errs)

/-- `toConfigDefinitions`: convert every config, collecting all errors; on
any error only the errors are returned. -/
def toConfigDefinitions (context : SerializerContext) (configs : List WConfig) :
    List ExtendedConfigDefinition × List ConfigTemplate ×
      List DetailedConfigWriterError :=
  let res := configs.foldl
    (fun (acc : List ExtendedConfigDefinition × List ConfigTemplate ×
        List DetailedConfigWriterError) c =>
      let conv := toConfigDefinition context c
      if conv.2.2.isEmpty then
        (acc.1 ++ [{ configDefinition := conv.1, group := c.group,
                     environment := c.environment }],
         acc.2.1 ++ [conv.2.1], acc.2.2)
      else (acc.1, acc.2.1, acc.2.2 ++ conv.2.2))
    ([], [], [])
  if res.2.2.isEmpty then res else ([], [], res.2.2)

/-- Grouping preserving first-occurrence key order: models iterating a Go
map built by appending per key. -/
def groupPreservingOrder {κ α : Type} [DecidableEq κ] (key : α → κ)
    (l : List α) : List (κ × List α) :=
  l.foldl
    (fun acc x =>
      let k := key x
      if (alookup k acc).isSome then
        acc.map (fun p => if p.1 = k then (p.1, p.2 ++ [x]) else p)
      else acc ++ [(k, [x])])
    []

/-- `groupConfigs`. -/
def groupConfigs (configs : List WConfig) :
    List (Coordinate × List WConfig) :=
  groupPreservingOrder (fun c => c.coordinate) configs

/-- `groupByGroups`. -/
def groupByGroups (configs : List ExtendedConfigDefinition) :
    List (String × List ExtendedConfigDefinition) :=
  groupPreservingOrder (fun c => c.group) configs

/-- `propertyCheckResult`. -/
structure PropertyCheckResult where
  shareName : Bool
  foundName : Bool
  name : GoValue
  shareTemplate : Bool
  foundTemplate : Bool
  template : String
  shareSkip : Bool
  foundSkip : Bool
  skip : GoValue
deriving DecidableEq, Repr

/-- `testForSameProperties` (called on a group of at least two configs; the
empty case mirrors the zero result). -/
def testForSameProperties (configs : List ExtendedConfigDefinition) :
    PropertyCheckResult :=
  match configs with
  | [] =>
    { shareName := true, foundName := false, name := .vNil,
      shareTemplate := true, foundTemplate := false, template := "",
      shareSkip := true, foundSkip := false, skip := .vNil }
  | c0 :: _ =>
    let name := c0.configDefinition.name
    let templ := c0.configDefinition.template
    let skip := c0.configDefinition.skip
    let sameName := configs.all (fun c => decide (name = c.configDefinition.name))
    let sameTemplate :=
      configs.all (fun c => decide (templ = c.configDefinition.template))
    let sameSkip := configs.all (fun c =>
      decide (skip = c.configDefinition.skip
        ∨ (skip = .vNil ∧ c.configDefinition.skip = .vBool false)
        ∨ (skip = .vBool false ∧ c.configDefinition.skip = .vNil)))
    let name := if sameName then name else .vNil
    let templ := if sameTemplate then templ else ""
    let skip := if sameSkip then skip else .vNil
    { shareName := sameName,
      foundName := decide (name ≠ .vNil) || !sameName,
      name := name,
      shareTemplate := sameTemplate,
      foundTemplate := decide (templ ≠ "") || !sameTemplate,
      template := templ,
      shareSkip := sameSkip,
      foundSkip := decide (skip ≠ .vNil) || !sameSkip,
      skip := skip }

/-- `isSharedParameter` (a key missing from a config's parameter map
compares as the Go nil value). -/
def isSharedParameter (configs : List ExtendedConfigDefinition)
    (name : String) (val : GoValue) : Bool :=
  configs.all (fun conf =>
    decide ((alookup name conf.configDefinition.parameters).getD .vNil = val))

/-- `extractSharedParameters`. -/
def extractSharedParameters (configs : List ExtendedConfigDefinition) :
    List (String × GoValue) :=
  match configs with
  | [] => []
  | c0 :: rest =>
    c0.configDefinition.parameters.filter (fun p => isSharedParameter rest p.1 p.2)

/-- `createCommonConfigDefinition`. -/
def createCommonConfigDefinition (checkResult : PropertyCheckResult)
    (sharedParameters : List (String × GoValue)) : ConfigDefinition :=
  { name := if checkResult.foundName || checkResult.shareName then
      checkResult.name else .vNil,
    template := if checkResult.foundTemplate || checkResult.shareTemplate then
      checkResult.template else "",
    skip := if checkResult.foundSkip || checkResult.shareSkip then
      checkResult.skip else .vNil,
    parameters := if sharedParameters.length > 0 then sharedParameters else [] }

/-- `createConfigDefinitionWithoutSharedValues`. -/
def createConfigDefinitionWithoutSharedValues
    (toReduce : ExtendedConfigDefinition) (checkResult : PropertyCheckResult)
    (sharedParameters : List (String × GoValue)) : Option ConfigDefinition :=
  let reducedParameters := toReduce.configDefinition.parameters.filter
    (fun p => (alookup p.1 sharedParameters).isNone)
  let allParametersShared := toReduce.configDefinition.parameters.all
    (fun p => (alookup p.1 sharedParameters).isSome)
  if allParametersShared && checkResult.shareName && checkResult.shareSkip
      && checkResult.shareTemplate then
    none
  else
    some { parameters := reducedParameters,
           name := if checkResult.shareName then .vNil
             else toReduce.configDefinition.name,
           template := if checkResult.shareTemplate then ""
             else toReduce.configDefinition.template,
           skip := if checkResult.shareSkip then .vNil
             else toReduce.configDefinition.skip,
           originObjectId := "" }

/-- `extractCommonBase`. -/
def extractCommonBase (configs : List ExtendedConfigDefinition) :
    Option ConfigDefinition × List ExtendedConfigDefinition :=
  match configs with
  | [] => (none, [])
  | [c] => (some c.configDefinition, [])
  | _ =>
    let checkResult := testForSameProperties configs
    let sharedParam := extractSharedParameters configs
    if sharedParam.length == 0
        && (!checkResult.foundName || !checkResult.shareName)
        && (!checkResult.foundTemplate || !checkResult.shareTemplate)
        && (!checkResult.foundSkip || !checkResult.shareSkip) then
      (none, configs)
    else
      (some (createCommonConfigDefinition checkResult sharedParam),
       configs.filterMap (fun conf =>
         match createConfigDefinitionWithoutSharedValues conf checkResult
             sharedParam with
         | none => none
         | some reducedConf =>
           some { configDefinition := reducedConf, group := conf.group,
                  environment := conf.environment }))

/-- `getScope`. -/
def getScope (context : SerializerContext) (config : WConfig) :
    Except DetailedConfigWriterError GoValue :=
  match alookup ScopeParameter config.parameters with
  | none =>
    .error (fmtDetailedConfigWriterError context
      "scope parameter not found. This is likely a bug")
  | some scopeParam =>
    match toParameterDefinition
        { serializerContext := context,
          environmentDetails := { group := "", environment := "" } }
        ScopeParameter scopeParam with
    | .error _ =>
      .error (fmtDetailedConfigWriterError context
        "failed to serialize scope-parameter")
    | .ok v => .ok v

/-- `extractConfigType`; `automationEnabled` models the ambient
`featureflags.AutomationResources().Enabled()` gate. -/
def extractConfigType (automationEnabled : Bool)
    (context : SerializerContext) (config : WConfig) :
    Except DetailedConfigWriterError TypeDefinition :=
  match config.type with
  | .settingsType schemaId schemaVersion =>
    match getScope context config with
    | .error e => .error e
    | .ok serializedScope =>
      .ok (.settingsDef schemaId schemaVersion serializedScope)
  | .classicApiType => .ok (.apiType config.coordinate.type)
  | .entityType entitiesType => .ok (.entitiesDef entitiesType)
  | .automationType resource =>
    if automationEnabled then .ok (.automationDef resource)
    else
      .error (fmtDetailedConfigWriterError context
        "automation resource feature is not enabled")

/-- The zero `topLevelConfigDefinition` returned alongside errors. -/
def emptyTopLevelConfigDefinition : TopLevelConfigDefinition :=
  { id := "", config := {}, type := .apiType "" }

/-- `toTopLevelConfigDefinition` (the group is nonempty at every call site;
the empty case mirrors the index panic of the source as an error). -/
def toTopLevelConfigDefinition (automationEnabled : Bool)
    (context : SerializerContext) (configs : List WConfig) :
    TopLevelConfigDefinition × List ConfigTemplate ×
      List DetailedConfigWriterError :=
  let conv := toConfigDefinitions context configs
  if !conv.2.2.isEmpty then (emptyTopLevelConfigDefinition, [], conv.2.2)
  else
    let grouped := groupByGroups conv.1
    let overrides := grouped.foldl
      (fun (acc : List ExtendedConfigDefinition × List ExtendedConfigDefinition) p =>
        let baseReduced := extractCommonBase p.2
        ((match baseReduced.1 with
          | some base => acc.1 ++ [{ configDefinition := base, group := p.1 }]
          | none => acc.1),
         acc.2 ++ baseReduced.2))
      ([], [])
    let baseReducedGroups := extractCommonBase overrides.1
    let config := baseReducedGroups.1.getD {}
    let groupOverrideConfigs := baseReducedGroups.2.map
      (fun conf => { group := conf.group,
                     override := conf.configDefinition : GroupOverride })
    let environmentOverrideConfigs := overrides.2.map
      (fun conf => { environment := conf.environment,
                     override := conf.configDefinition : EnvironmentOverride })
    match configs with
    | [] =>
      (emptyTopLevelConfigDefinition, [],
       [fmtDetailedConfigWriterError context "empty config group"])
    | c0 :: _ =>
      match extractConfigType automationEnabled context c0 with
      | .error _ =>
        (emptyTopLevelConfigDefinition, [],
         [fmtDetailedConfigWriterError context "failed to extract config type"])
      | .ok ct =>
        ({ id := context.config.configId,
           config := config,
           type := ct,
           groupOverrides := groupOverrideConfigs,
           environmentOverrides := environmentOverrideConfigs },
         conv.2.1, [])

/-- `toTopLevelDefinitions`: group configs per coordinate, convert each
group, collect all conversion errors; when any occurred only the errors are
returned, otherwise the per-API definitions and the (path-deduplicated)
templates. -/
def toTopLevelDefinitions (automationEnabled : Bool)
    (context : WriterContext) (configs : List WConfig) :
    List (ApiCoordinate × TopLevelDefinition) × List ConfigTemplate ×
      List DetailedConfigWriterError :=
  let configsPerCoordinate := groupConfigs configs
  let res := configsPerCoordinate.foldl
    (fun (acc : List DetailedConfigWriterError ×
        List (ApiCoordinate × List TopLevelConfigDefinition) ×
        List String × List ConfigTemplate) p =>
      let coord := p.1
      let configContext : SerializerContext :=
        { writerContext := context,
          configFolder := filepathJoin [context.projectFolder,
            sanitize coord.type],
          config := coord }
      let conv := toTopLevelConfigDefinition automationEnabled configContext p.2
      if !conv.2.2.isEmpty then
        (acc.1 ++ conv.2.2, acc.2.1, acc.2.2.1, acc.2.2.2)
      else
        let apiCoord : ApiCoordinate :=
          { project := coord.project, api := coord.type }
        let configsPerApi :=
          if (alookup apiCoord acc.2.1).isSome then
            acc.2.1.map (fun q =>
              if q.1 = apiCoord then (q.1, q.2 ++ [conv.1]) else q)
          else acc.2.1 ++ [(apiCoord, [conv.1])]
        let dedup := conv.2.1.foldl
          (fun (acc2 : List String × List ConfigTemplate) t =>
            if acc2.1.contains t.templatePath then acc2
            else (acc2.1 ++ [t.templatePath], acc2.2 ++ [t]))
          (acc.2.2.1, acc.2.2.2)
        (acc.1, configsPerApi, dedup.1, dedup.2))
    ([], [], [], [])
  if !res.1.isEmpty then ([], [], res.1)
  else (res.2.1.map (fun p => (p.1, { configs := p.2 : TopLevelDefinition })),
        res.2.2.2, [])

/-- `byConfigId`. -/
def byConfigId (a b : TopLevelConfigDefinition) : Bool :=
  a.id < b.id

/-- Insertion step for the sort used before marshalling a config file. -/
def insertSortedByConfigId (x : TopLevelConfigDefinition) :
    List TopLevelConfigDefinition → List TopLevelConfigDefinition
  | [] => [x]
  | y :: rest =>
    if byConfigId x y then x :: y :: rest else y :: insertSortedByConfigId x rest

/-- Models `slices.SortFunc(definition.Configs, byConfigId)`. -/
def sortFuncByConfigId (l : List TopLevelConfigDefinition) :
    List TopLevelConfigDefinition :=
  l.foldr insertSortedByConfigId []

/-- `writeTopLevelDefinitionToDisk` (the filesystem never fails in the
model, so the error return of the source does not arise; the writes
performed are returned). -/
def writeTopLevelDefinitionToDisk (context : WriterContext)
    (apiCoord : ApiCoordinate) (definition : TopLevelDefinition) :
    List FsOp :=
  let definitionYaml :=
    yamlMarshal { configs := sortFuncByConfigId definition.configs }
  let targetConfigFile := filepathJoin [context.outputFolder,
    context.projectFolder, sanitize apiCoord.api, "config.yaml"]
  [FsOp.mkdirAll (filepathDir targetConfigFile),
   FsOp.writeFile targetConfigFile definitionYaml]

/-- `writeTemplates` (filesystem failures modelled as never occurring). -/
def writeTemplates (context : WriterContext)
    (templates : List ConfigTemplate) : List FsOp :=
  templates.foldl
    (fun acc t =>
      let fullTemplatePath := filepathJoin [context.outputFolder,
        t.templatePath]
      acc ++ [FsOp.mkdirAll (filepathDir fullTemplatePath),
              FsOp.writeFile fullTemplatePath t.content])
    []

/-- `WriteConfigs`: convert all configs to top-level definitions; if any
conversion error occurred, return exactly those errors without touching
the filesystem; otherwise write every definition file and every template
and return the (in the model empty) write-error list together with the
writes performed. -/
def WriteConfigs (automationEnabled : Bool) (context : WriterContext)
    (configs : List WConfig) :
    List DetailedConfigWriterError × List FsOp :=
  let conv := toTopLevelDefinitions automationEnabled context configs
  if !conv.2.2.isEmpty then (conv.2.2, [])
  else
    let defOps := conv.1.foldl
      (fun acc p => acc ++ writeTopLevelDefinitionToDisk context p.1 p.2) []
    ([], defOps ++ writeTemplates context conv.2.1)

/-! ## Concrete instances

Fixtures mirroring the unit tests, used by the witnesses below. -/

/-- The coordinate of the dashboard config used throughout the tests. -/
def dashboardCoordinate : Coordinate :=
  { project := "project1", type := "dashboard", configId := "dashboard-1" }

/-- A parameter referencing the `owner` property of the own coordinate. -/
def ownerRefParam : Parameter :=
  { references := [{ config := dashboardCoordinate, property := "owner" }] }

/-- A parameter referencing the `name` property of the own coordinate. -/
def nameRefParam : Parameter :=
  { references := [{ config := dashboardCoordinate, property := NameParameter }] }

/-- Two sibling parameters of one object referencing each other. -/
def cyclicConfig : Config :=
  { coordinate := dashboardCoordinate,
    type := .classicApi "dashboard",
    parameters := [(NameParameter, ownerRefParam), ("owner", nameRefParam)] }

/-- The dashboard API (unique-name). -/
def dashboardApi : Api := { id := "dashboard" }

/-- The referenced management-zone coordinate of the tests. -/
def zoneCoordinate : Coordinate :=
  { project := "project2", type := "management-zone", configId := "zone1" }

/-- A parameter referencing the zone coordinate. -/
def refToZoneParam : Parameter :=
  { references := [{ config := zoneCoordinate, property := NameParameter }] }

/-- A config whose name parameter references the zone coordinate. -/
def refToZoneConfig : Config :=
  { coordinate := dashboardCoordinate,
    type := .classicApi "dashboard",
    parameters := [(NameParameter, refToZoneParam)] }

/-- A Skip=true registry entry for the zone coordinate. -/
def skippedZoneEntity : ResolvedEntity :=
  { entityName := "zone1", coordinate := zoneCoordinate, properties := [],
    skip := true }

/-- First of two configs resolving to the same name under one API. -/
def uniqueNameConfig1 : Config :=
  { coordinate := { project := "p", type := "theApiName", configId := "c1" },
    type := .classicApi "theApiName",
    parameters := [(NameParameter, { value := .str "theConfigName" })] }

/-- Second of two configs resolving to the same name under one API. -/
def uniqueNameConfig2 : Config :=
  { coordinate := { project := "p", type := "theApiName", configId := "c2" },
    type := .classicApi "theApiName",
    parameters := [(NameParameter, { value := .str "theConfigName" })] }

/-- The entity produced by successfully deploying `uniqueNameConfig1`. -/
def deployedEntity1 : ResolvedEntity :=
  { entityName := "theConfigName", coordinate := uniqueNameConfig1.coordinate,
    properties := [(NameParameter, .str "theConfigName")], skip := false }

/-- A config with only the skip flag set. -/
def skipOnlyConfig : Config :=
  { coordinate := dashboardCoordinate, skip := true }

/-- A writer context with no registered serializers. -/
def witnessWriterContext : WriterContext :=
  { outputFolder := "out", projectFolder := "proj", parametersSerde := [] }

/-- A writer-side config without a `name` parameter (conversion fails). -/
def witnessWConfig : WConfig :=
  { template := .inMemory "t1" "content",
    coordinate := { project := "p", type := "api1", configId := "c1" } }

/-! ## Theorems -/

/-- C7: rendering the template "Follow the (.color) (.Env.ANIMAL)" with the
property map (color: white) and process environment ANIMAL=cow yields
exactly "Follow the white cow"; the same template with ANIMAL unset in the
environment fails with UnresolvedPlaceholder; and an environment value
containing equals signs, cow=rabbit=chicken, appears verbatim in the output
with no truncation at the equals sign or delimiter interpretation. -/
theorem template_fidelity_concrete :
    (renderTemplate [("color", .str "white"), ("animalType", .str "rabbit")]
        [("ANIMAL", "cow")]
        [.lit "Follow the ", .prop "color", .lit " ", .env "ANIMAL"]
      = .ok "Follow the white cow")
  ∧ (renderTemplate [("color", .str "white"), ("animalType", .str "rabbit")] []
        [.lit "Follow the ", .prop "color", .lit " ", .env "ANIMAL"]
      = .error (.unresolvedPlaceholder "ANIMAL"))
  ∧ (renderTemplate [("color", .str "white"), ("animalType", .str "rabbit")]
        [("ANIMAL", "cow=rabbit=chicken")]
        [.lit "Follow the ", .prop "color", .lit " ", .env "ANIMAL"]
      = .ok "Follow the white cow=rabbit=chicken") :=
  ⟨rfl, rfl, rfl⟩

/-- Helper: the raw substitution engine concatenates literal runs and the
provided values verbatim whenever every referenced key has an entry. -/
theorem renderTemplate_concat_of_resolvable
    (t : List TemplateItem) (properties : List (String × ParamValue))
    (environment : List (String × String))
    (h : ∀ item ∈ t, itemResolvable properties environment item = true) :
    renderTemplate properties environment t =
      .ok (concatPieces (t.map (substitutedText properties environment))) := by
  induction t with
  | nil => rfl
  | cons hd rest ih =>
    have hhd := h hd (List.mem_cons_self _ _)
    have hrest : ∀ item ∈ rest, itemResolvable properties environment item = true :=
      fun item hm => h item (List.mem_cons_of_mem _ hm)
    cases hd with
    | lit s =>
      simp [renderTemplate, concatPieces, substitutedText, ih hrest, Except.map]
    | prop k =>
      cases ho : alookup k properties with
      | none => rw [itemResolvable, ho] at hhd; simp at hhd
      | some v =>
        simp [renderTemplate, concatPieces, substitutedText, ho, ih hrest,
          Except.map]
    | env k =>
      cases ho : alookup k environment with
      | none => rw [itemResolvable, ho] at hhd; simp at hhd
      | some v =>
        simp [renderTemplate, concatPieces, substitutedText, ho, ih hrest,
          Except.map]

/-- Helper: looking a key up after `escapeSpecialCharacters` yields the
escaped form of the original value. -/
theorem alookup_escapeSpecialCharacters (k : String)
    (properties : List (String × ParamValue)) :
    alookup k (escapeSpecialCharacters properties) =
      (alookup k properties).map (fun v =>
        match v with
        | .str s =>
          if isListDefinition s then ParamValue.str s
          else ParamValue.str (escapeCharactersForJson s)
        | other => other) := by
  induction properties with
  | nil => rfl
  | cons hd rest ih =>
    obtain ⟨k', v⟩ := hd
    have hcons : escapeSpecialCharacters ((k', v) :: rest)
        = (k',
           match v with
           | .str s =>
             if isListDefinition s then ParamValue.str s
             else ParamValue.str (escapeCharactersForJson s)
           | other => other) :: escapeSpecialCharacters rest := rfl
    rw [hcons]
    by_cases h : k' = k
    · simp [alookup, h]
    · simp [alookup, h, ih]

/-- C1 counterexample: the claim as stated is false of the program — a
substituted value containing double quotes or newlines does not pass
through unmodified; the renderer escapes it, exactly as the
special-character test rows expect. -/
theorem renderer_escapes_counterexample :
    ExecuteTemplate
        [("value", .str "A \"String\" - that contains random \"quotes\"")] []
        [.prop "value"]
      = .ok "A \\\"String\\\" - that contains random \\\"quotes\\\""
    ∧ ExecuteTemplate
        [("value", .str "A \"String\" - that contains random \"quotes\"")] []
        [.prop "value"]
      ≠ .ok "A \"String\" - that contains random \"quotes\""
    ∧ ExecuteTemplate [("value", .str "line one\nline two")] [] [.prop "value"]
      = .ok "line one\\nline two" := by
  refine ⟨rfl, ?_, rfl⟩
  intro hc
  injection hc with hc
  exact absurd hc (by decide)

/-- C1 (amended, per the renderer's special-character tests): for every
template and property map, the renderer substitutes property values after
JSON-escaping them — the rendered output is the concatenation of the
literal runs (never escaped) and the escaped values — where each property
value is escaped exactly when it is not recognized as a v1 list
definition; list definitions pass through verbatim. -/
theorem executeTemplate_escapes_values (t : List TemplateItem)
    (properties : List (String × ParamValue))
    (environment : List (String × String))
    (h : ∀ item ∈ t,
      itemResolvable (escapeSpecialCharacters properties) environment item
        = true) :
    ExecuteTemplate properties environment t =
      .ok (concatPieces (t.map
        (substitutedText (escapeSpecialCharacters properties) environment)))
    ∧ ∀ k v, alookup k properties = some (.str v) →
        alookup k (escapeSpecialCharacters properties) =
          some (if isListDefinition v then ParamValue.str v
            else .str (escapeCharactersForJson v)) := by
  constructor
  · exact renderTemplate_concat_of_resolvable t _ environment h
  · intro k v hv
    rw [alookup_escapeSpecialCharacters, hv]
    rfl

/-- Witness for C1 (amended) at the quotes row of the cited test. -/
theorem executeTemplate_escapes_values_witness :
    (∀ item ∈ ([.lit "key: \"", .prop "value", .lit "\""] : List TemplateItem),
        itemResolvable
          (escapeSpecialCharacters
            [("value", .str "A \"String\" - that contains random \"quotes\"")])
          [] item = true)
    ∧ (ExecuteTemplate
          [("value", .str "A \"String\" - that contains random \"quotes\"")] []
          [.lit "key: \"", .prop "value", .lit "\""]
        = .ok (concatPieces
            (([.lit "key: \"", .prop "value", .lit "\""] : List TemplateItem).map
              (substitutedText
                (escapeSpecialCharacters
                  [("value",
                    ParamValue.str "A \"String\" - that contains random \"quotes\"")])
                [])))
      ∧ ∀ k v, alookup k
            [("value",
              ParamValue.str "A \"String\" - that contains random \"quotes\"")]
            = some (.str v) →
          alookup k (escapeSpecialCharacters
              [("value",
                ParamValue.str "A \"String\" - that contains random \"quotes\"")])
            = some (if isListDefinition v then ParamValue.str v
                else .str (escapeCharactersForJson v))) :=
  ⟨by decide, executeTemplate_escapes_values _ _ _ (by decide)⟩

/-- C8: for every template whose text references a key (property-map entry
or environment variable) with no entry at render time, Render returns an
UnresolvedPlaceholder error — naming a key that is indeed referenced and
missing — and produces no output (the result is an error, not a rendered
string); a missing key is never silently substituted with an empty
string. -/
theorem renderTemplate_missing_key_fails
    (t : List TemplateItem) (properties : List (String × ParamValue))
    (environment : List (String × String))
    (h : ∃ item ∈ t, itemResolvable properties environment item = false) :
    ∃ k, (∃ item ∈ t, (item = .prop k ∧ alookup k properties = none)
            ∨ (item = .env k ∧ alookup k environment = none))
      ∧ renderTemplate properties environment t =
          .error (.unresolvedPlaceholder k) := by
  induction t with
  | nil => rcases h with ⟨item, hm, _⟩; cases hm
  | cons hd rest ih =>
    cases hd with
    | lit s =>
      have h' : ∃ item ∈ rest, itemResolvable properties environment item = false := by
        rcases h with ⟨item, hm, hf⟩
        rcases List.mem_cons.mp hm with rfl | hm'
        · rw [itemResolvable] at hf; cases hf
        · exact ⟨item, hm', hf⟩
      rcases ih h' with ⟨k, ⟨item, hm, hcase⟩, herr⟩
      exact ⟨k, ⟨item, List.mem_cons_of_mem _ hm, hcase⟩,
        by simp [renderTemplate, herr, Except.map]⟩
    | prop k0 =>
      cases ho : alookup k0 properties with
      | none =>
        exact ⟨k0, ⟨.prop k0, List.mem_cons_self _ _, Or.inl ⟨rfl, ho⟩⟩,
          by simp [renderTemplate, ho]⟩
      | some v =>
        have h' : ∃ item ∈ rest, itemResolvable properties environment item = false := by
          rcases h with ⟨item, hm, hf⟩
          rcases List.mem_cons.mp hm with rfl | hm'
          · rw [itemResolvable, ho] at hf; cases hf
          · exact ⟨item, hm', hf⟩
        rcases ih h' with ⟨k, ⟨item, hm, hcase⟩, herr⟩
        exact ⟨k, ⟨item, List.mem_cons_of_mem _ hm, hcase⟩,
          by simp [renderTemplate, ho, herr, Except.map]⟩
    | env k0 =>
      cases ho : alookup k0 environment with
      | none =>
        exact ⟨k0, ⟨.env k0, List.mem_cons_self _ _, Or.inr ⟨rfl, ho⟩⟩,
          by simp [renderTemplate, ho]⟩
      | some v =>
        have h' : ∃ item ∈ rest, itemResolvable properties environment item = false := by
          rcases h with ⟨item, hm, hf⟩
          rcases List.mem_cons.mp hm with rfl | hm'
          · rw [itemResolvable, ho] at hf; cases hf
          · exact ⟨item, hm', hf⟩
        rcases ih h' with ⟨k, ⟨item, hm, hcase⟩, herr⟩
        exact ⟨k, ⟨item, List.mem_cons_of_mem _ hm, hcase⟩,
          by simp [renderTemplate, ho, herr, Except.map]⟩

/-- Witness for C8 on an empty property map, mirroring the
property-not-present template test. -/
theorem renderTemplate_missing_key_fails_witness :
    (∃ item ∈ ([.lit "Follow the ", .prop "color"] : List TemplateItem),
        itemResolvable [] [] item = false)
    ∧ ∃ k, (∃ item ∈ ([.lit "Follow the ", .prop "color"] : List TemplateItem),
          (item = .prop k ∧ alookup k ([] : List (String × ParamValue)) = none)
          ∨ (item = .env k ∧ alookup k ([] : List (String × String)) = none))
        ∧ renderTemplate [] [] [.lit "Follow the ", .prop "color"]
            = .error (.unresolvedPlaceholder k) :=
  ⟨by decide, renderTemplate_missing_key_fails _ _ _ (by decide)⟩

/-- C6: extracting the distinguished `name` parameter from the resolved
properties succeeds exactly when the properties contain an entry named
`name` whose value is a string, returning that string; an absent entry
fails with MissingNameParameter and a non-string entry fails with the
distinct InvalidNameType. -/
theorem extractConfigName_name_string_exactly (conf : Config)
    (properties : List (String × ParamValue)) :
    (∀ s, ExtractConfigName conf properties = .ok s ↔
        alookup NameParameter properties = some (.str s))
  ∧ (alookup NameParameter properties = none →
      ExtractConfigName conf properties = .error .missingNameParameter)
  ∧ (∀ v, alookup NameParameter properties = some v → (∀ s, v ≠ .str s) →
      ExtractConfigName conf properties = .error .invalidNameType) := by
  cases ho : alookup NameParameter properties with
  | none =>
    refine ⟨fun s => ?_, fun _ => ?_, fun v hv _ => ?_⟩
    · simp [ExtractConfigName, ho]
    · simp [ExtractConfigName, ho]
    · cases hv
  | some v =>
    cases v with
    | str s' =>
      refine ⟨fun s => ?_, fun hn => ?_, fun v hv hns => ?_⟩
      · simp [ExtractConfigName, ho]
      · cases hn
      · injection hv with hv
        exact absurd hv.symm (hns s')
    | int n =>
      refine ⟨fun s => ?_, fun hn => ?_, fun _ _ _ => ?_⟩
      · simp [ExtractConfigName, ho]
      · cases hn
      · simp [ExtractConfigName, ho]

/-- Witness for C6 at the three concrete property maps of the
extract-config-name tests. -/
theorem extractConfigName_name_string_exactly_witness :
    (ExtractConfigName { coordinate := dashboardCoordinate }
        [("name", .str "test")] = .ok "test")
    ∧ (ExtractConfigName { coordinate := dashboardCoordinate } []
        = .error .missingNameParameter)
    ∧ (ExtractConfigName { coordinate := dashboardCoordinate }
        [("name", .int 1)] = .error .invalidNameType) :=
  ⟨((extractConfigName_name_string_exactly { coordinate := dashboardCoordinate }
      [("name", .str "test")]).1 "test").mpr (by decide),
   (extractConfigName_name_string_exactly { coordinate := dashboardCoordinate }
      []).2.1 (by decide),
   (extractConfigName_name_string_exactly { coordinate := dashboardCoordinate }
      [("name", .int 1)]).2.2 (.int 1) (by decide)
      (fun s h => ParamValue.noConfusion h)⟩

/-- Helper: a self-reference of a parameter puts a SelfReference error into
the validator's output. -/
theorem selfReference_mem_validate (configCoordinates : Coordinate)
    (g e paramName : String) (entities : List (Coordinate × ResolvedEntity))
    (param : Parameter) (ref : ParameterReference)
    (href : ref ∈ param.references) (hself : ref.config = configCoordinates) :
    DeployError.selfReference configCoordinates ref.property ∈
      validateParameterReferences configCoordinates g e entities paramName param := by
  unfold validateParameterReferences
  exact List.mem_filterMap.mpr ⟨ref, href, by simp [hself]⟩

/-- Helper: a reference to a coordinate absent from the registry puts an
UnresolvedDependency error into the validator's output. -/
theorem unresolvedDependency_mem_validate (configCoordinates : Coordinate)
    (g e paramName : String) (entities : List (Coordinate × ResolvedEntity))
    (param : Parameter) (ref : ParameterReference)
    (href : ref ∈ param.references) (hne : ref.config ≠ configCoordinates)
    (hnone : alookup ref.config entities = none) :
    DeployError.unresolvedDependency ref.config ∈
      validateParameterReferences configCoordinates g e entities paramName param := by
  unfold validateParameterReferences
  exact List.mem_filterMap.mpr ⟨ref, href, by simp [hne, hnone]⟩

/-- Helper: a reference to a Skip=true registry entry puts a
ReferenceToSkippedConfig error into the validator's output. -/
theorem referenceToSkipped_mem_validate (configCoordinates : Coordinate)
    (g e paramName : String) (entities : List (Coordinate × ResolvedEntity))
    (param : Parameter) (ref : ParameterReference) (ent : ResolvedEntity)
    (href : ref ∈ param.references) (hne : ref.config ≠ configCoordinates)
    (hsome : alookup ref.config entities = some ent) (hskip : ent.skip = true) :
    DeployError.referenceToSkippedConfig ref.config ∈
      validateParameterReferences configCoordinates g e entities paramName param := by
  unfold validateParameterReferences
  exact List.mem_filterMap.mpr ⟨ref, href, by simp [hne, hsome, hskip]⟩

/-- Helper: a parameter whose reference validation fails makes the whole
resolution error list nonempty (errors are collected, never dropped). -/
theorem resolve_errors_nonempty (conf : Config)
    (entities : List (Coordinate × ResolvedEntity)) :
    ∀ (parameters : List (String × Parameter)) (paramName : String)
      (param : Parameter), (paramName, param) ∈ parameters →
    validateParameterReferences conf.coordinate conf.group conf.environment
      entities paramName param ≠ [] →
    (ResolveParameterValues conf entities parameters).2 ≠ [] := by
  intro parameters
  induction parameters with
  | nil => intro _ _ h; cases h
  | cons hd rest ih =>
    intro paramName param hmem hval
    rcases List.mem_cons.mp hmem with heq | hmem'
    · subst heq
      cases hv : validateParameterReferences conf.coordinate conf.group
          conf.environment entities paramName param with
      | nil => exact absurd hv hval
      | cons a tl => simp [ResolveParameterValues, hv]
    · have hr := ih paramName param hmem' hval
      obtain ⟨k, p⟩ := hd
      simp only [ResolveParameterValues]
      split
      · split
        · simp
        · simpa using hr
      · simp only [ne_eq, List.append_eq_nil]
        exact fun hc => hr hc.2

/-- Helper: when resolution produced errors, deployConfig fails with
exactly those errors (and performs no remote operation). -/
theorem deployConfig_error_of_resolve (theApi : Api)
    (entities : List (Coordinate × ResolvedEntity))
    (knownEntityNames : List (String × List String))
    (environment : List (String × String)) (conf : Config)
    (h : (ResolveParameterValues conf entities conf.parameters).2 ≠ []) :
    deployConfig theApi entities knownEntityNames environment conf =
      .error (ResolveParameterValues conf entities conf.parameters).2 := by
  unfold deployConfig
  cases hv : (ResolveParameterValues conf entities conf.parameters).2 with
  | nil => exact absurd hv h
  | cons a tl => simp [hv]

/-- C2: for every object and every parameter of it, a declared reference
whose target coordinate equals the object's own coordinate makes reference
validation fail with a SelfReference error — regardless of which property
name the reference names — and deployment of the object fails with a
nonempty error list (two sibling parameters of one object referencing each
other are each rejected this way). -/
theorem selfReference_blocks_deployment
    (conf : Config) (paramName : String) (param : Parameter)
    (ref : ParameterReference) (theApi : Api)
    (entities : List (Coordinate × ResolvedEntity))
    (knownEntityNames : List (String × List String))
    (environment : List (String × String))
    (hmem : (paramName, param) ∈ conf.parameters)
    (href : ref ∈ param.references)
    (hself : ref.config = conf.coordinate) :
    DeployError.selfReference conf.coordinate ref.property ∈
      validateParameterReferences conf.coordinate conf.group conf.environment
        entities paramName param
    ∧ ∃ errs, deployConfig theApi entities knownEntityNames environment conf
        = .error errs ∧ errs ≠ [] := by
  have hv := selfReference_mem_validate conf.coordinate conf.group
    conf.environment paramName entities param ref href hself
  have hvne := List.ne_nil_of_mem hv
  have hr := resolve_errors_nonempty conf entities conf.parameters paramName
    param hmem hvne
  exact ⟨hv, _, deployConfig_error_of_resolve theApi entities knownEntityNames
    environment conf hr, hr⟩

/-- Witness for C2 on the cyclic two-parameter config of the tests (the
name and owner parameters of one dashboard reference each other). -/
theorem selfReference_blocks_deployment_witness :
    DeployError.selfReference cyclicConfig.coordinate "owner" ∈
      validateParameterReferences cyclicConfig.coordinate cyclicConfig.group
        cyclicConfig.environment [] NameParameter ownerRefParam
    ∧ ∃ errs, deployConfig dashboardApi [] [] [] cyclicConfig
        = .error errs ∧ errs ≠ [] :=
  selfReference_blocks_deployment cyclicConfig NameParameter ownerRefParam
    { config := dashboardCoordinate, property := "owner" } dashboardApi [] [] []
    (by decide) (by decide) (by decide)

/-- C3: for every parameter reference of an object whose target coordinate
differs from the object's own: a target without registry entry makes
validation fail with UnresolvedDependency, and a target whose registry
entry has Skip=true makes validation fail with ReferenceToSkippedConfig; in
either case deployment of the object returns a nonempty error (it is never
deployed without error). -/
theorem crossReference_unresolved_or_skipped
    (conf : Config) (paramName : String) (param : Parameter)
    (ref : ParameterReference) (theApi : Api)
    (entities : List (Coordinate × ResolvedEntity))
    (knownEntityNames : List (String × List String))
    (environment : List (String × String))
    (hmem : (paramName, param) ∈ conf.parameters)
    (href : ref ∈ param.references)
    (hne : ref.config ≠ conf.coordinate) :
    (alookup ref.config entities = none →
      DeployError.unresolvedDependency ref.config ∈
        validateParameterReferences conf.coordinate conf.group conf.environment
          entities paramName param
      ∧ ∃ errs, deployConfig theApi entities knownEntityNames environment conf
          = .error errs ∧ errs ≠ [])
    ∧ (∀ ent, alookup ref.config entities = some ent → ent.skip = true →
      DeployError.referenceToSkippedConfig ref.config ∈
        validateParameterReferences conf.coordinate conf.group conf.environment
          entities paramName param
      ∧ ∃ errs, deployConfig theApi entities knownEntityNames environment conf
          = .error errs ∧ errs ≠ []) := by
  constructor
  · intro hnone
    have hv := unresolvedDependency_mem_validate conf.coordinate conf.group
      conf.environment paramName entities param ref href hne hnone
    have hr := resolve_errors_nonempty conf entities conf.parameters paramName
      param hmem (List.ne_nil_of_mem hv)
    exact ⟨hv, _, deployConfig_error_of_resolve theApi entities knownEntityNames
      environment conf hr, hr⟩
  · intro ent hsome hskip
    have hv := referenceToSkipped_mem_validate conf.coordinate conf.group
      conf.environment paramName entities param ref ent href hne hsome hskip
    have hr := resolve_errors_nonempty conf entities conf.parameters paramName
      param hmem (List.ne_nil_of_mem hv)
    exact ⟨hv, _, deployConfig_error_of_resolve theApi entities knownEntityNames
      environment conf hr, hr⟩

/-- Witness for C3: the dashboard config referencing a management zone,
once against an empty registry and once with the zone recorded as
skipped. -/
theorem crossReference_unresolved_or_skipped_witness :
    (DeployError.unresolvedDependency zoneCoordinate ∈
        validateParameterReferences refToZoneConfig.coordinate
          refToZoneConfig.group refToZoneConfig.environment []
          NameParameter refToZoneParam
      ∧ ∃ errs, deployConfig dashboardApi [] [] [] refToZoneConfig
          = .error errs ∧ errs ≠ [])
    ∧ (DeployError.referenceToSkippedConfig zoneCoordinate ∈
        validateParameterReferences refToZoneConfig.coordinate
          refToZoneConfig.group refToZoneConfig.environment
          [(zoneCoordinate, skippedZoneEntity)] NameParameter refToZoneParam
      ∧ ∃ errs, deployConfig dashboardApi [(zoneCoordinate, skippedZoneEntity)]
          [] [] refToZoneConfig = .error errs ∧ errs ≠ []) :=
  ⟨(crossReference_unresolved_or_skipped refToZoneConfig NameParameter
      refToZoneParam { config := zoneCoordinate, property := NameParameter }
      dashboardApi [] [] [] (by decide) (by decide) (by decide)).1 (by decide),
   (crossReference_unresolved_or_skipped refToZoneConfig NameParameter
      refToZoneParam { config := zoneCoordinate, property := NameParameter }
      dashboardApi [(zoneCoordinate, skippedZoneEntity)] [] []
      (by decide) (by decide) (by decide)).2 skippedZoneEntity
      (by decide) (by decide)⟩

/-- C5: for every object that passes resolution and validation (that is,
whose dispatch succeeds), the dispatcher selects the remote operation by
the object's variant: the unique variant performs exactly one
upsert-by-name call carrying the resolved name, the non-unique variant
exactly one upsert-by-generated-id call whose identifier is the stable
deterministic function of the object's coordinate; neither variant invokes
the other's operation. -/
theorem dispatcher_selects_operation_by_variant (theApi : Api)
    (entities : List (Coordinate × ResolvedEntity))
    (knownEntityNames : List (String × List String))
    (environment : List (String × String)) (conf : Config)
    (entity : ResolvedEntity) (op : RemoteOp)
    (h : deployConfig theApi entities knownEntityNames environment conf
      = .ok (entity, op)) :
    (theApi.isNonUniqueNameApi = false →
      ∃ payload, op = .upsertByName theApi.id entity.entityName payload)
    ∧ (theApi.isNonUniqueNameApi = true →
      ∃ payload, op = .upsertByEntityId theApi.id (stableID conf.coordinate)
        entity.entityName payload) := by
  simp only [deployConfig] at h
  split at h
  · split at h
    · cases h
    · split at h
      · cases h
      · split at h
        · cases h
        · rename_i x1 configName hname hdup x2 payload hrender
          injection h with h
          injection h with hent hop
          subst hent
          subst hop
          refine ⟨fun hu => ⟨payload, ?_⟩, fun hu => ⟨payload, ?_⟩⟩ <;>
            simp [hu]
  · cases h

/-- Witness for C5 on a successfully dispatched unique-name config. -/
theorem dispatcher_selects_operation_by_variant_witness :
    (({ id := "theApiName" } : Api).isNonUniqueNameApi = false →
      ∃ payload, RemoteOp.upsertByName "theApiName" "theConfigName" ""
        = .upsertByName ({ id := "theApiName" } : Api).id
            deployedEntity1.entityName payload)
    ∧ (({ id := "theApiName" } : Api).isNonUniqueNameApi = true →
      ∃ payload, RemoteOp.upsertByName "theApiName" "theConfigName" ""
        = .upsertByEntityId ({ id := "theApiName" } : Api).id
            (stableID uniqueNameConfig1.coordinate)
            deployedEntity1.entityName payload) :=
  dispatcher_selects_operation_by_variant { id := "theApiName" } [] [] []
    uniqueNameConfig1 deployedEntity1
    (RemoteOp.upsertByName "theApiName" "theConfigName" "") rfl

/-- Helper: the coordinator's step on a skipped config only appends the
Skip=true registry entry. -/
theorem deployConfigsStep_skip (apis : List (String × Api))
    (environment : List (String × String)) (st : RunState) (conf : Config)
    (h : conf.skip = true) :
    deployConfigsStep apis environment st conf =
      { st with entities := st.entities ++ [(conf.coordinate, skippedEntity conf)] } := by
  simp [deployConfigsStep, h]

/-- Helper: folding the coordinator over an all-skipped list only appends
Skip=true registry entries. -/
theorem foldl_all_skip (apis : List (String × Api))
    (environment : List (String × String)) :
    ∀ (cfgs : List Config) (st : RunState), (∀ c ∈ cfgs, c.skip = true) →
    cfgs.foldl (deployConfigsStep apis environment) st =
      { st with entities := st.entities ++
          cfgs.map (fun c => (c.coordinate, skippedEntity c)) } := by
  intro cfgs
  induction cfgs with
  | nil => intro st _; simp
  | cons hd rest ih =>
    intro st h
    rw [List.foldl_cons,
      deployConfigsStep_skip apis environment st hd (h hd (List.mem_cons_self _ _)),
      ih _ (fun c hm => h c (List.mem_cons_of_mem _ hm))]
    simp

/-- Helper: looking up any listed config's coordinate among the Skip=true
entries finds a Skip=true entry. -/
theorem alookup_skipEntities (cfgs : List Config) (c : Config) (hm : c ∈ cfgs) :
    ∃ ent, alookup c.coordinate
        (cfgs.map (fun c0 => (c0.coordinate, skippedEntity c0))) = some ent
      ∧ ent.skip = true := by
  induction cfgs with
  | nil => cases hm
  | cons hd rest ih =>
    by_cases hc : hd.coordinate = c.coordinate
    · exact ⟨skippedEntity hd, by simp [alookup, hc], rfl⟩
    · rcases List.mem_cons.mp hm with rfl | hm'
      · exact absurd rfl hc
      · rcases ih hm' with ⟨ent, hl, hs⟩
        exact ⟨ent, by simp [alookup, hc, hl], hs⟩

/-- C9: every object with skip flag true is processed without any remote
call and without touching the name index, gets a Skip=true registry entry,
and contributes no error; consequently a run whose ordered list is empty or
contains only skipped objects returns an empty error list (and performs no
remote operation at all). -/
theorem skipped_configs_produce_no_errors (apis : List (String × Api))
    (environment : List (String × String)) (cfgs : List Config)
    (h : ∀ c ∈ cfgs, c.skip = true) :
    (DeployConfigs apis environment cfgs).errors = []
    ∧ (DeployConfigs apis environment cfgs).ops = []
    ∧ (DeployConfigs apis environment cfgs).knownEntityNames = []
    ∧ ∀ c ∈ cfgs, ∃ ent,
        alookup c.coordinate (DeployConfigs apis environment cfgs).entities
          = some ent ∧ ent.skip = true := by
  have hfold := foldl_all_skip apis environment cfgs {} h
  unfold DeployConfigs
  rw [hfold]
  refine ⟨rfl, rfl, rfl, fun c hm => ?_⟩
  simpa using alookup_skipEntities cfgs c hm

/-- Witness for C9 on the one-skipped-config run of the tests. -/
theorem skipped_configs_produce_no_errors_witness :
    (DeployConfigs [] [] [skipOnlyConfig]).errors = []
    ∧ (DeployConfigs [] [] [skipOnlyConfig]).ops = []
    ∧ (DeployConfigs [] [] [skipOnlyConfig]).knownEntityNames = []
    ∧ ∀ c ∈ [skipOnlyConfig], ∃ ent,
        alookup c.coordinate (DeployConfigs [] [] [skipOnlyConfig]).entities
          = some ent ∧ ent.skip = true :=
  skipped_configs_produce_no_errors [] [] [skipOnlyConfig] (by decide)

/-- C10: WriteConfigs is atomic with respect to conversion failures: when
converting the configs to top-level definitions produces at least one
error, WriteConfigs returns exactly those errors and performs no
filesystem write at all; writes happen only when every config converted
successfully. -/
theorem writeConfigs_atomic_on_conversion_errors
    (automationEnabled : Bool) (context : WriterContext)
    (configs : List WConfig) :
    ((toTopLevelDefinitions automationEnabled context configs).2.2 ≠ [] →
      WriteConfigs automationEnabled context configs =
        ((toTopLevelDefinitions automationEnabled context configs).2.2, []))
    ∧ ((WriteConfigs automationEnabled context configs).2 ≠ [] →
      (toTopLevelDefinitions automationEnabled context configs).2.2 = []) := by
  constructor
  · intro h
    unfold WriteConfigs
    cases he : (toTopLevelDefinitions automationEnabled context configs).2.2 with
    | nil => exact absurd he h
    | cons a tl => simp [he]
  · intro h
    cases he : (toTopLevelDefinitions automationEnabled context configs).2.2 with
    | nil => rfl
    | cons a tl =>
      have hw : (WriteConfigs automationEnabled context configs).2 = [] := by
        unfold WriteConfigs
        simp [he]
      exact absurd hw h

/-- Witness for C10 on a config whose conversion fails (its `name`
parameter is missing). -/
theorem writeConfigs_atomic_on_conversion_errors_witness :
    (toTopLevelDefinitions false witnessWriterContext [witnessWConfig]).2.2 ≠ []
    ∧ WriteConfigs false witnessWriterContext [witnessWConfig] =
        ((toTopLevelDefinitions false witnessWriterContext [witnessWConfig]).2.2,
         []) :=
  ⟨by decide,
   (writeConfigs_atomic_on_conversion_errors false witnessWriterContext
     [witnessWConfig]).1 (by decide)⟩

/-- Helper: dispatch of a config whose only parameter is a literal string
`name` evaluates to the duplicate-name error when the name is already
known to a unique-name API, and otherwise to the variant-selected remote
operation. -/
theorem deployConfig_simple (theApi : Api)
    (entities : List (Coordinate × ResolvedEntity))
    (knownEntityNames : List (String × List String))
    (environment : List (String × String)) (conf : Config) (s p : String)
    (hp : conf.parameters = [(NameParameter, { value := .str s })])
    (hr : renderTemplate [(NameParameter, .str s)] environment conf.template
      = .ok p) :
    deployConfig theApi entities knownEntityNames environment conf =
      if !theApi.isNonUniqueNameApi
          && (knownNames knownEntityNames theApi.id).contains s then
        .error [.duplicateName theApi.id s]
      else
        .ok ({ entityName := s, coordinate := conf.coordinate,
               properties := [(NameParameter, .str s)], skip := false },
             if theApi.isNonUniqueNameApi then
               .upsertByEntityId theApi.id (stableID conf.coordinate) s p
             else .upsertByName theApi.id s p) := by
  unfold deployConfig
  rw [hp]
  simp [ResolveParameterValues, validateParameterReferences, ExtractConfigName,
    hr]

/-- C4: for every pair of unique-variant configs in one run whose name
parameter resolves to the same string under the same API, the second
processed config fails with DuplicateName and no remote call is made for
it (the run performs only the first config's upsert-by-name); the same
pair under the non-unique variant both deploy, each via its own
upsert-by-generated-id call. -/
theorem duplicateName_second_unique_fails (a s p1 p2 : String)
    (c1 c2 : Config) (environment : List (String × String))
    (h1p : c1.parameters = [(NameParameter, { value := .str s })])
    (h2p : c2.parameters = [(NameParameter, { value := .str s })])
    (h1s : c1.skip = false) (h2s : c2.skip = false)
    (h1t : c1.type = .classicApi a) (h2t : c2.type = .classicApi a)
    (h1r : renderTemplate [(NameParameter, .str s)] environment c1.template
      = .ok p1)
    (h2r : renderTemplate [(NameParameter, .str s)] environment c2.template
      = .ok p2) :
    ((DeployConfigs [(a, { id := a })] environment [c1, c2]).errors
        = [.duplicateName a s]
      ∧ (DeployConfigs [(a, { id := a })] environment [c1, c2]).ops
        = [.upsertByName a s p1])
    ∧ ((DeployConfigs [(a, { id := a, isNonUniqueNameApi := true })]
          environment [c1, c2]).errors = []
      ∧ (DeployConfigs [(a, { id := a, isNonUniqueNameApi := true })]
          environment [c1, c2]).ops
        = [.upsertByEntityId a (stableID c1.coordinate) s p1,
           .upsertByEntityId a (stableID c2.coordinate) s p2]) := by
  constructor
  · have ed1 := deployConfig_simple { id := a } [] [] environment c1 s p1
      h1p h1r
    have ed2 := deployConfig_simple { id := a }
      [(c1.coordinate,
        { entityName := s, coordinate := c1.coordinate,
          properties := [(NameParameter, .str s)], skip := false })]
      [(a, [s])] environment c2 s p2 h2p h2r
    constructor <;>
      simp [DeployConfigs, deployConfigsStep, h1s, h2s, h1t, h2t, ed1, ed2,
        addKnownName, knownNames]
  · have ed1 := deployConfig_simple { id := a, isNonUniqueNameApi := true }
      [] [] environment c1 s p1 h1p h1r
    have ed2 := deployConfig_simple { id := a, isNonUniqueNameApi := true }
      [(c1.coordinate,
        { entityName := s, coordinate := c1.coordinate,
          properties := [(NameParameter, .str s)], skip := false })]
      [] environment c2 s p2 h2p h2r
    constructor <;>
      simp [DeployConfigs, deployConfigsStep, h1s, h2s, h1t, h2t, ed1, ed2,
        addKnownName, knownNames]

/-- Witness for C4 on the two same-named configs of the classic-config
run tests. -/
theorem duplicateName_second_unique_fails_witness :
    ((DeployConfigs [("theApiName", { id := "theApiName" })] []
          [uniqueNameConfig1, uniqueNameConfig2]).errors
        = [.duplicateName "theApiName" "theConfigName"]
      ∧ (DeployConfigs [("theApiName", { id := "theApiName" })] []
          [uniqueNameConfig1, uniqueNameConfig2]).ops
        = [.upsertByName "theApiName" "theConfigName" ""])
    ∧ ((DeployConfigs
          [("theApiName", { id := "theApiName", isNonUniqueNameApi := true })]
          [] [uniqueNameConfig1, uniqueNameConfig2]).errors = []
      ∧ (DeployConfigs
          [("theApiName", { id := "theApiName", isNonUniqueNameApi := true })]
          [] [uniqueNameConfig1, uniqueNameConfig2]).ops
        = [.upsertByEntityId "theApiName"
             (stableID uniqueNameConfig1.coordinate) "theConfigName" "",
           .upsertByEntityId "theApiName"
             (stableID uniqueNameConfig2.coordinate) "theConfigName" ""]) :=
  duplicateName_second_unique_fails "theApiName" "theConfigName" "" ""
    uniqueNameConfig1 uniqueNameConfig2 []
    (by decide) (by decide) (by decide) (by decide) (by decide) (by decide)
    rfl rfl

end Monaco
